import Mathlib

/-!
Shallow embedding of the Patterna Shield fraud-detection core (src/main.py)
and verification of the frozen claims about it.

Modelling conventions:
* Python strings are Lean `String` (lists of unicode chars); Python's
  substring test `needle in hay` is `substrIn`, `str.startswith` is
  `List.isPrefixOf` on the character lists, `str.lower()` maps
  `Char.toLower` over the characters (ASCII case-folding, which is what all
  the lexicon entries need), `re.sub` with the phone character class is
  the character filter `reSubKeep`, `str.split(sep)` for a one-character
  separator is `splitOnChar`.
* Transaction amounts are `ℚ` (the float arithmetic performed on them is
  exact at the magnitudes compared).
* Timestamps are `Int` seconds.  Python's `timedelta.seconds` field is the
  floor-mod `(now - ts) % 86400` (`timedeltaSeconds` below), which is
  exactly what line 145 of the source computes.
* The risk scores are `Nat`: every weight is a non-negative integer and the
  float accumulator only ever holds such integers.
* `analyze_phone` returns `Except String PhoneResult`, mirroring the
  try/except wrapper of the endpoint; no statement in its body can raise,
  so the code constructs `.ok` unconditionally.
* `analyze_url`/`analyze_email` return `Option` because the source indexes
  `url.split('/')[2]` and `sender_email.split('@')[1]`, which raise when
  the index is out of range; `none` models that raise.
* Result records keep the source's field names; the wall-clock echo fields
  (`analysis_timestamp`, `processing_time_ms`) are omitted because they
  only echo the injected clock.
-/

/-- Substring containment of `pat` in a list, at any position: the model of
Python's `needle in hay`. -/
def containsSub (pat : List Char) : List Char → Bool
  | [] => pat.isPrefixOf ([] : List Char)
  | c :: cs => pat.isPrefixOf (c :: cs) || containsSub pat cs

/-- Python `needle in hay` on strings. -/
def substrIn (needle hay : String) : Bool := containsSub needle.toList hay.toList

/-- Python `str.lower()` (ASCII case folding). -/
def strLower (s : String) : String := String.mk (s.toList.map Char.toLower)

/-- Python `s.split(sep)` for a single-character separator: always yields at
least one segment, one more segment per separator occurrence. -/
def splitOnChar (sep : Char) : List Char → List (List Char)
  | [] => [[]]
  | c :: cs =>
    match splitOnChar sep cs with
    | [] => [[c]]
    | s :: ss => if c = sep then [] :: s :: ss else (c :: s) :: ss

/-- Number of positions of `l` at which `pat` occurs (starts). -/
def countOcc (pat : List Char) : List Char → Nat
  | [] => if pat.isPrefixOf ([] : List Char) then 1 else 0
  | c :: cs => (if pat.isPrefixOf (c :: cs) then 1 else 0) + countOcc pat cs

/-! ### Lexicon Store (src/main.py lines 108-123, 153, 206, 245, 262, 464) -/

/-- Turkish fraud keyword lexicon (src/main.py lines 108-113). -/
def turkish_fraud_keywords : List String :=
  ["acil", "hemen", "son fırsat", "kazandınız", "tebrikler",
   "ivedilikle", "derhal", "müdahale", "bloke", "hesap askıya alındı",
   "güvenlik ihlali", "onaylayın", "doğrulayın", "link\x27e tıklayın",
   "bilgilerinizi güncelleyin", "kartınız bloke edildi"]

/-- Suspicious domain list (src/main.py lines 115-117). -/
def suspicious_domains : List String :=
  ["bit.ly", "tinyurl.com", "short.link", "t.co", "suspicious-bank.com"]

/-- Suspicious hours (src/main.py line 122). -/
def suspicious_hours : List Nat := [0, 1, 2, 3, 4, 5]

/-- Suspicious merchant markers (src/main.py line 153). -/
def suspicious_merchants : List String := ["unknown", "test", "fake"]

/-- Sensitive URL parameter names (src/main.py line 206). -/
def suspicious_params : List String := ["password", "card", "ssn", "pin"]

/-- Urgency phrase set for email bodies (src/main.py line 245). -/
def urgency_patterns : List String :=
  ["acil", "hemen", "derhal", "son", "müdahale gerekiyor"]

/-- Legitimate sender-domain allowlist (src/main.py line 262). -/
def legitimate_domains : List String :=
  ["gmail.com", "outlook.com", "hotmail.com", "yahoo.com"]

/-- Known premium/fraud phone prefixes (src/main.py line 464). -/
def phone_fraud_patterns : List String := ["0850", "0900", "444"]

/-! ### Activity Tracker (src/main.py lines 94-95, 142-146, 378-382) -/

/-- One entry of `transaction_history`, restricted to the two fields the
rapid-transaction check reads: `customer_id` and `timestamp`. -/
structure HistRecord where
  customer_id : String
  timestamp : Int
deriving DecidableEq

/-- Python `(datetime.now() - datetime.fromisoformat(ts)).seconds`: the
seconds field of a normalized timedelta, i.e. the floor-mod of the total
difference by 86400 (src/main.py line 145). -/
def timedeltaSeconds (now ts : Int) : Int := (now - ts) % 86400

/-- The `recent_transactions` list comprehension of src/main.py lines
142-146: same customer and `timedelta.seconds < 300`. -/
def recentTransactions (history : List HistRecord) (cid : String) (now : Int) :
    List HistRecord :=
  history.filter fun t =>
    t.customer_id == cid && decide (timedeltaSeconds now t.timestamp < 300)

/-! ### Transaction evaluator (src/main.py lines 60-74, 125-177, 370-382) -/

/-- `TransactionData` (src/main.py lines 60-68), with the optional
timestamp omitted (the analyzer never reads it). -/
structure TransactionData where
  transaction_id : String
  amount : ℚ
  currency : String
  merchant_name : String
  customer_id : String
  card_last_4 : String

/-- Transaction assessment returned by `analyze_transaction`
(src/main.py lines 169-177). -/
structure TxResult where
  transaction_id : String
  risk_score : Nat
  risk_level : String
  recommended_action : String
  risk_factors : List String
deriving DecidableEq

/-- The merchant check of src/main.py line 154: any suspicious marker is a
substring of the lowercased merchant name. -/
def suspiciousMerchantHit (merchant_name : String) : Bool :=
  suspicious_merchants.any fun w => substrIn w (strLower merchant_name)

/-- The transaction risk-level chain of src/main.py lines 158-167 (which
assigns the level and the action together; split here into two reads of the
same conditions). -/
def txLevel (raw : Nat) : String :=
  if 70 ≤ raw then "HIGH" else if 40 ≤ raw then "MEDIUM" else "LOW"

/-- The recommended action assigned alongside `txLevel`
(src/main.py lines 158-167). -/
def txAction (raw : Nat) : String :=
  if 70 ≤ raw then "BLOCK" else if 40 ≤ raw then "REVIEW" else "ALLOW"

/-- `FraudDetectionEngine.analyze_transaction` (src/main.py lines 125-177).
`current_hour` is `datetime.now().hour` and `now` is the same clock
reading in seconds; `history` is the shared `transaction_history` log. -/
def analyze_transaction (t : TransactionData) (current_hour : Nat) (now : Int)
    (history : List HistRecord) : TxResult :=
  let highAmount : Bool := decide ((10000 : ℚ) < t.amount)
  let suspHour : Bool := suspicious_hours.contains current_hour
  let rapid : Bool := decide (5 ≤ (recentTransactions history t.customer_id now).length)
  let suspMerchant : Bool := suspiciousMerchantHit t.merchant_name
  let raw : Nat :=
    (if highAmount then 30 else 0) + (if suspHour then 20 else 0) +
    (if rapid then 40 else 0) + (if suspMerchant then 25 else 0)
  let factors : List String :=
    (if highAmount then ["Yüksek tutar"] else []) ++
    (if suspHour then ["Şüpheli saat aralığı"] else []) ++
    (if rapid then ["Ardışık hızlı işlemler"] else []) ++
    (if suspMerchant then ["Şüpheli merchant"] else [])
  ⟨t.transaction_id, min 100 raw, txLevel raw, txAction raw, factors⟩

/-- The `detect_fraud` endpoint body (src/main.py lines 370-382): analyze
first, then append the current event to `transaction_history`. -/
def detect_fraud (t : TransactionData) (current_hour : Nat) (now : Int)
    (history : List HistRecord) : TxResult × List HistRecord :=
  let result := analyze_transaction t current_hour now history
  (result, history ++ [⟨t.customer_id, now⟩])

/-! ### URL evaluator (src/main.py lines 179-227) -/

/-- URL assessment returned by `analyze_url` (src/main.py lines 219-227). -/
structure URLResult where
  url : String
  domain : String
  risk_score : Nat
  risk_level : String
  risk_factors : List String
  is_safe : Bool
deriving DecidableEq

/-- Domain extraction of src/main.py line 185:
`url.split('/')[2] if '//' in url else url.split('/')[0]`.  The `Option`
models the potential `IndexError` of the Python indexing. -/
def extractDomain (url : String) : Option String :=
  if substrIn "//" url then ((splitOnChar '/' url.toList)[2]?).map String.mk
  else ((splitOnChar '/' url.toList)[0]?).map String.mk

/-- The URL/phone risk-level thresholds (src/main.py lines 212-217 and
475-480 use the identical chain): HIGH at 60, MEDIUM at 30, else LOW. -/
def riskLevel60 (raw : Nat) : String :=
  if 60 ≤ raw then "HIGH" else if 30 ≤ raw then "MEDIUM" else "LOW"

/-- `FraudDetectionEngine.analyze_url` (src/main.py lines 179-227). -/
def analyze_url (url : String) : Option URLResult :=
  (extractDomain url).map fun domain =>
    let suspDomain : Bool := suspicious_domains.any fun d => substrIn d domain
    let long : Bool := decide (100 < url.length)
    let hyphens : Bool := decide (5 < url.toList.count '-')
    let noHttps : Bool := !(List.isPrefixOf "https://".toList url.toList)
    let suspParam : Bool := suspicious_params.any fun p => substrIn p (strLower url)
    let raw : Nat :=
      (if suspDomain then 60 else 0) + (if long then 20 else 0) +
      (if hyphens then 15 else 0) + (if noHttps then 25 else 0) +
      (if suspParam then 40 else 0)
    let factors : List String :=
      (if suspDomain then ["Bilinen şüpheli domain"] else []) ++
      (if long then ["Aşırı uzun URL"] else []) ++
      (if hyphens then ["Çok fazla tire karakteri"] else []) ++
      (if noHttps then ["HTTPS kullanılmıyor"] else []) ++
      (if suspParam then ["Şüpheli parametreler"] else [])
    ⟨url, domain, min 100 raw, riskLevel60 raw, factors, decide (raw < 30)⟩

/-! ### Email evaluator (src/main.py lines 81-86, 229-285) -/

/-- Email assessment returned by `analyze_email` (src/main.py lines
276-285). -/
structure EmailResult where
  sender_email : String
  subject : String
  risk_score : Nat
  risk_level : String
  risk_factors : List String
  keyword_matches : List String
  suspicious_links : Nat
deriving DecidableEq

/-- A character accepted by the repeated group of the link regex of
src/main.py line 252.  The class is the union of ASCII letters, digits, the
range from the dollar sign (0x24) to the underscore (0x5F) - which already
holds the percent sign, so the percent-encoded alternative adds nothing -
and the six listed punctuation characters. -/
def urlTokenChar (c : Char) : Bool :=
  ('a' ≤ c && c ≤ 'z') || ('A' ≤ c && c ≤ 'Z') || ('0' ≤ c && c ≤ '9') ||
  ('$' ≤ c && c ≤ '_') ||
  c == '!' || c == '*' || c == '\\' || c == '(' || c == ')' || c == ','

/-- Leftmost match of the link regex at the head of `l`: the scheme
(`https` preferred, per greedy `[s]?`) followed by a maximal nonempty run
of `urlTokenChar`s.  Returns the matched token and the rest of the text. -/
def matchLinkAt (l : List Char) : Option (List Char × List Char) :=
  if List.isPrefixOf "https://".toList l then
    let rest := l.drop 8
    let run := rest.takeWhile urlTokenChar
    if run.isEmpty then none else some ("https://".toList ++ run, rest.drop run.length)
  else if List.isPrefixOf "http://".toList l then
    let rest := l.drop 7
    let run := rest.takeWhile urlTokenChar
    if run.isEmpty then none else some ("http://".toList ++ run, rest.drop run.length)
  else none

/-- Leftmost, non-overlapping scan, as `re.findall` performs; the fuel is
the text length, enough since every step consumes at least one character. -/
def findLinksAux : Nat → List Char → List (List Char)
  | 0, _ => []
  | _ + 1, [] => []
  | fuel + 1, c :: cs =>
    match matchLinkAt (c :: cs) with
    | some (tok, rest) => tok :: findLinksAux fuel rest
    | none => findLinksAux fuel cs

/-- `re.findall(link_regex, email_content)` (src/main.py lines 252-253). -/
def findLinks (content : List Char) : List (List Char) :=
  findLinksAux content.length content

/-- Keyword scan of src/main.py line 238: lexicon entries found in the
lowercased body or the lowercased subject, in lexicon order. -/
def keywordMatches (content_lower subject_lower : String) : List String :=
  turkish_fraud_keywords.filter fun kw =>
    substrIn kw content_lower || substrIn kw subject_lower

/-- `urgency_count` of src/main.py line 246: the number of urgency phrases
present (each phrase counted once however often it occurs). -/
def urgencyCount (content_lower : String) : Nat :=
  (urgency_patterns.filter fun p => substrIn p content_lower).length

/-- The urgency contribution to the email risk score (src/main.py lines
247-248): `urgency_count * 15` when positive, nothing otherwise. -/
def urgencyScore (content_lower : String) : Nat :=
  if 0 < urgencyCount content_lower then urgencyCount content_lower * 15 else 0

/-- The per-link suspicious check of src/main.py line 256 over the
extracted links. -/
def suspiciousLinks (content : String) : List (List Char) :=
  (findLinks content.toList).filter fun link =>
    suspicious_domains.any fun d => containsSub d.toList link

/-- The link contribution to the email risk score (src/main.py lines
255-258): 30 per suspicious link. -/
def linkScore (content : String) : Nat := 30 * (suspiciousLinks content).length

/-- The spoofed-bank-domain test of src/main.py line 264. -/
def spoofedBank (sender_domain : String) : Bool :=
  !(legitimate_domains.contains sender_domain) && substrIn "bank" sender_domain

/-- The email risk-level thresholds (src/main.py lines 269-274). -/
def emailLevel (raw : Nat) : String :=
  if 70 ≤ raw then "HIGH" else if 40 ≤ raw then "MEDIUM" else "LOW"

/-- `FraudDetectionEngine.analyze_email` (src/main.py lines 229-285).
`none` models the `IndexError` raised by `sender_email.split('@')[1]` when
the sender has no at sign (excluded upstream by `EmailStr`). -/
def analyze_email (email_content sender_email subject : String) : Option EmailResult :=
  (((splitOnChar '@' sender_email.toList)[1]?).map String.mk).map fun sender_domain =>
    let content_lower := strLower email_content
    let subject_lower := strLower subject
    let kws := keywordMatches content_lower subject_lower
    let spoof : Bool := spoofedBank sender_domain
    let raw : Nat :=
      kws.length * 10 + urgencyScore content_lower + linkScore email_content +
      (if spoof then 25 else 0)
    let factors : List String :=
      (if kws.isEmpty then []
       else ["Şüpheli kelimeler: " ++ String.intercalate ", " kws]) ++
      (if 0 < urgencyCount content_lower then ["Aciliyet bildiren ifadeler"] else []) ++
      (suspiciousLinks email_content).map (fun _ => "Şüpheli link") ++
      (if spoof then ["Sahte banka domain\x27i"] else [])
    ⟨sender_email, subject, min 100 raw, emailLevel raw, factors, kws,
     (findLinks email_content.toList).length⟩

/-! ### Phone evaluator (src/main.py lines 88-92, 449-503) -/

/-- Phone assessment returned by `analyze_phone` (src/main.py lines
482-490). -/
structure PhoneResult where
  phone_number : String
  caller_name : Option String
  risk_score : Nat
  risk_level : String
  risk_factors : List String
  is_safe : Bool
deriving DecidableEq

/-- A character kept by the cleaning regex of src/main.py line 457: a digit
or a plus sign (at any position). -/
def keepPhoneChar (c : Char) : Bool := c.isDigit || c == '+'

/-- The substitution performed by the cleaning regex: drop every character
the class rejects, keep the rest in order. -/
def reSubKeep : List Char → List Char
  | [] => []
  | c :: cs => if keepPhoneChar c then c :: reSubKeep cs else reSubKeep cs

/-- `clean_phone` (src/main.py line 457). -/
def cleanPhone (phone_number : String) : String := String.mk (reSubKeep phone_number.toList)

/-- The `analyze_phone` endpoint body (src/main.py lines 449-503).  The
`Except` mirrors the try/except wrapper; no statement of the body can
raise, so the result is always `.ok`. -/
def analyze_phone (phone_number : String) (caller_name : Option String) :
    Except String PhoneResult :=
  let clean_phone := cleanPhone phone_number
  let foreign : Bool :=
    !(List.isPrefixOf "+90".toList clean_phone.toList) &&
    !(List.isPrefixOf "90".toList clean_phone.toList)
  let fraudPat : Bool := phone_fraud_patterns.any fun p => substrIn p clean_phone
  let badLen : Bool := decide (clean_phone.length < 10) || decide (14 < clean_phone.length)
  let raw : Nat :=
    (if foreign then 20 else 0) + (if fraudPat then 40 else 0) + (if badLen then 30 else 0)
  let factors : List String :=
    (if foreign then ["Türkiye dışı numara"] else []) ++
    (if fraudPat then ["Şüpheli numara formatı"] else []) ++
    (if badLen then ["Geçersiz numara uzunluğu"] else [])
  Except.ok
    ⟨phone_number, caller_name, min 100 raw, riskLevel60 raw, factors, decide (raw < 30)⟩

/-! ### Helper lemmas -/

/-- Membership in a conditionally-produced factor list. -/
theorem mem_cond_list {α : Type} (b : Bool) (a : α) (l : List α) :
    a ∈ (if b then l else []) ↔ b = true ∧ a ∈ l := by
  cases b <;> simp

/-- The phone-cleaning substitution is the character filter of its class. -/
theorem reSubKeep_eq_filter (l : List Char) : reSubKeep l = l.filter keepPhoneChar := by
  induction l with
  | nil => rfl
  | cons c cs ih => simp only [reSubKeep, List.filter_cons, ih]

/-- `containsSub` decides substring containment, that is, the infix order. -/
theorem containsSub_correct (pat l : List Char) :
    containsSub pat l = true ↔ pat <:+: l := by
  induction l with
  | nil => simp [containsSub, List.isPrefixOf_iff_prefix]
  | cons c cs ih =>
    simp [containsSub, List.isPrefixOf_iff_prefix, ih, List.infix_cons_iff]

/-- A pattern occurs at some position of `l` exactly when it is contained
in `l`. -/
theorem countOcc_pos_iff (pat l : List Char) :
    0 < countOcc pat l ↔ containsSub pat l = true := by
  induction l with
  | nil =>
    simp only [countOcc, containsSub]
    split <;> simp_all
  | cons c cs ih =>
    simp only [countOcc, containsSub, Bool.or_eq_true, ← ih]
    split
    · next h => exact iff_of_true (by omega) (Or.inl h)
    · next h => simp [h]

/-- The single-character splitter never returns an empty segment list. -/
theorem splitOnChar_ne_nil (sep : Char) (l : List Char) : splitOnChar sep l ≠ [] := by
  cases l with
  | nil => simp [splitOnChar]
  | cons c cs =>
    cases h : splitOnChar sep cs with
    | nil => simp [splitOnChar, h]
    | cons s ss =>
      simp only [splitOnChar, h]
      split <;> simp

/-- The splitter yields one segment more than the separator count. -/
theorem splitOnChar_length (sep : Char) (l : List Char) :
    (splitOnChar sep l).length = l.count sep + 1 := by
  induction l with
  | nil => simp [splitOnChar]
  | cons c cs ih =>
    cases h : splitOnChar sep cs with
    | nil => exact absurd h (splitOnChar_ne_nil sep cs)
    | cons s ss =>
      rw [h] at ih
      simp only [splitOnChar, h, List.count_cons]
      rcases eq_or_ne c sep with hc | hc
      · simp only [if_pos hc, hc, beq_self_eq_true, if_pos]
        simp at ih ⊢
        omega
      · simp only [if_neg hc, List.length_cons]
        have : (c == sep) = false := beq_eq_false_iff_ne.mpr hc
        simp [this] at ih ⊢
        omega

/-- The first segment of the splitter is the text before the first
separator (the whole list when there is none). -/
theorem splitOnChar_getZero (sep : Char) (l : List Char) :
    (splitOnChar sep l)[0]? = some (l.takeWhile fun c => !(c == sep)) := by
  induction l with
  | nil => simp [splitOnChar]
  | cons c cs ih =>
    cases h : splitOnChar sep cs with
    | nil => exact absurd h (splitOnChar_ne_nil sep cs)
    | cons s ss =>
      rw [h] at ih
      simp only [splitOnChar, h]
      rcases eq_or_ne c sep with hc | hc
      · simp [if_pos hc, hc, List.takeWhile_cons]
      · have hb : (c == sep) = false := beq_eq_false_iff_ne.mpr hc
        simp only [if_neg hc, List.takeWhile_cons, hb, Bool.not_false, if_pos]
        simp only [List.getElem?_cons_zero, Option.some.injEq] at ih ⊢
        simp [ih]

/-- The URL/phone level chain answers LOW exactly below the MEDIUM
threshold. -/
theorem riskLevel60_eq_low_iff (raw : Nat) : riskLevel60 raw = "LOW" ↔ raw < 30 := by
  unfold riskLevel60
  split
  · next h => exact iff_of_false (by simp) (by omega)
  · split
    · next h => exact iff_of_false (by simp) (by omega)
    · next h₁ h₂ => exact iff_of_true rfl (by omega)

/-- The transaction level chain always produces one of the three levels. -/
theorem txLevel_cases (raw : Nat) :
    txLevel raw = "LOW" ∨ txLevel raw = "MEDIUM" ∨ txLevel raw = "HIGH" := by
  unfold txLevel
  split
  · right; right; rfl
  · split
    · right; left; rfl
    · left; rfl

/-- High-amount membership characterization for the transaction factor
list. -/
theorem mem_highAmount_iff (t : TransactionData) (ch : Nat) (now : Int)
    (hist : List HistRecord) :
    "Yüksek tutar" ∈ (analyze_transaction t ch now hist).risk_factors ↔
      (10000 : ℚ) < t.amount := by
  by_cases hA : (10000 : ℚ) < t.amount
  · simp [analyze_transaction, hA]
  · simp [analyze_transaction, hA, mem_cond_list]

/-! ### Claims -/

/-- Claim C1 (code behavior at the failing input): the recency test of the
rapid-transactions count uses `timedelta.seconds`, the day-wrapped residue
of the age, so an event recorded exactly 86400 seconds (one day) before the
query - far more than 300 seconds old - is still counted as recent,
contradicting the claim that events older than 300 seconds never
contribute. -/
theorem claimC1_code_behavior :
    (recentTransactions [⟨"c1", 0⟩] "c1" 86400).length = 1 ∧
    (300 : Int) < 86400 - 0 := by
  decide

/-- Claim C2 (code behavior at the failing input): with five events for the
customer all recorded one day before the query, the rapid-transactions rule
fires (its label is in the factor list) although zero prior events lie in
the true trailing 300-second window, refuting the stated
"if and only if at least 5 events within the trailing 300-second window".
The second conjunct evaluates the genuine window membership count. -/
theorem claimC2_code_behavior :
    "Ardışık hızlı işlemler" ∈
      (analyze_transaction ⟨"t6", 50, "TRY", "market", "c1", "1234"⟩ 14 86400
        [⟨"c1", 0⟩, ⟨"c1", 0⟩, ⟨"c1", 0⟩, ⟨"c1", 0⟩, ⟨"c1", 0⟩]).risk_factors ∧
    ([(⟨"c1", 0⟩ : HistRecord), ⟨"c1", 0⟩, ⟨"c1", 0⟩, ⟨"c1", 0⟩, ⟨"c1", 0⟩].filter fun r =>
      r.customer_id == "c1" && decide ((86400 : Int) - r.timestamp < 300)).length = 0 := by
  decide

/-- Claim C4 (counterexample): cleaning "1+2" keeps the plus sign at
position 1, so a non-leading plus is NOT removed, contrary to the claim. -/
theorem claimC4_counterexample :
    cleanPhone "1+2" = "1+2" ∧ ((cleanPhone "1+2").toList)[1]? = some '+' := by
  constructor <;> rfl

/-- Claim C4 (amended): cleaning keeps exactly the digit and plus
characters of the input, in order, wherever they occur - a plus sign is
preserved at every position, not only at the front. -/
theorem claimC4_amended (s : String) :
    (cleanPhone s).toList = s.toList.filter keepPhoneChar ∧
    ∀ c ∈ (cleanPhone s).toList, c.isDigit ∨ c = '+' := by
  have h1 : (cleanPhone s).toList = s.toList.filter keepPhoneChar := by
    simp [cleanPhone, reSubKeep_eq_filter]
  refine ⟨h1, fun c hc => ?_⟩
  rw [h1] at hc
  have hk : keepPhoneChar c = true := (List.mem_filter.mp hc).2
  rcases Bool.or_eq_true _ _ |>.mp hk with h | h
  · exact Or.inl h
  · exact Or.inr (beq_iff_eq.mp h)

/-- Claim C4 witness: the amended statement applied to the input "1a+". -/
theorem claimC4_witness :
    (cleanPhone "1a+").toList = "1a+".toList.filter keepPhoneChar ∧
    ('1'.isDigit ∨ '1' = '+') :=
  ⟨(claimC4_amended "1a+").1, (claimC4_amended "1a+").2 '1' (by decide)⟩

/-- Claim C5 (counterexample): the input "abc" cleans to the empty string,
yet the phone evaluation succeeds and returns a full risk assessment
(score 50, MEDIUM, not safe) instead of any rejection. -/
theorem claimC5_counterexample :
    cleanPhone "abc" = "" ∧
    analyze_phone "abc" none =
      Except.ok ⟨"abc", none, 50, "MEDIUM",
        ["Türkiye dışı numara", "Geçersiz numara uzunluğu"], false⟩ := by
  constructor <;> rfl

/-- Claim C5 (amended): an input cleaning to the empty string is not
rejected; the evaluator always returns the same assessment for it: the
non-domestic (+20) and invalid-length (+30) rules fire, score 50, level
MEDIUM, not safe. -/
theorem claimC5_amended (p : String) (c : Option String) (h : cleanPhone p = "") :
    analyze_phone p c =
      Except.ok ⟨p, c, 50, "MEDIUM",
        ["Türkiye dışı numara", "Geçersiz numara uzunluğu"], false⟩ := by
  simp only [analyze_phone, h]
  rfl

/-- Claim C5 witness: the amended statement applied to the empty input. -/
theorem claimC5_witness :
    analyze_phone "" none =
      Except.ok ⟨"", none, 50, "MEDIUM",
        ["Türkiye dışı numara", "Geçersiz numara uzunluğu"], false⟩ :=
  claimC5_amended "" none rfl

/-- Claim C8: the high-amount factor is present exactly when the amount is
strictly greater than 10000; amount 10000 does not trigger it, 10000.01
does. -/
theorem claimC8_high_amount :
    (∀ (t : TransactionData) (ch : Nat) (now : Int) (hist : List HistRecord),
      "Yüksek tutar" ∈ (analyze_transaction t ch now hist).risk_factors ↔
        (10000 : ℚ) < t.amount) ∧
    "Yüksek tutar" ∉
      (analyze_transaction ⟨"t1", 10000, "TRY", "market", "c1", "1234"⟩ 14 0 []).risk_factors ∧
    "Yüksek tutar" ∈
      (analyze_transaction ⟨"t2", 10000.01, "TRY", "market", "c1", "1234"⟩ 14 0 []).risk_factors := by
  refine ⟨mem_highAmount_iff, ?_, ?_⟩
  · intro hx
    exact absurd ((mem_highAmount_iff _ _ _ _).mp hx) (by norm_num)
  · exact (mem_highAmount_iff _ _ _ _).mpr (by norm_num)

/-- Claim C9: a non-positive amount cannot fire the high-amount rule, and
the evaluation still produces a complete assessment whose score is the
clamp of the three remaining rule weights and whose level is one of the
three levels; the evaluator is a total function, so no crash is possible. -/
theorem claimC9_nonpositive_amount (t : TransactionData) (ch : Nat) (now : Int)
    (hist : List HistRecord) (h : t.amount ≤ 0) :
    "Yüksek tutar" ∉ (analyze_transaction t ch now hist).risk_factors ∧
    (analyze_transaction t ch now hist).risk_score =
      min 100 ((if suspicious_hours.contains ch then 20 else 0) +
        (if 5 ≤ (recentTransactions hist t.customer_id now).length then 40 else 0) +
        (if suspiciousMerchantHit t.merchant_name then 25 else 0)) ∧
    ((analyze_transaction t ch now hist).risk_level = "LOW" ∨
     (analyze_transaction t ch now hist).risk_level = "MEDIUM" ∨
     (analyze_transaction t ch now hist).risk_level = "HIGH") := by
  have hA : ¬ ((10000 : ℚ) < t.amount) := by
    intro hlt
    have : (10000 : ℚ) < 0 := hlt.trans_le h
    norm_num at this
  refine ⟨fun hx => absurd ((mem_highAmount_iff _ _ _ _).mp hx) hA, ?_, ?_⟩
  · simp [analyze_transaction, hA]
  · have : (analyze_transaction t ch now hist).risk_level =
        txLevel ((if decide ((10000 : ℚ) < t.amount) then 30 else 0) +
          (if suspicious_hours.contains ch then 20 else 0) +
          (if decide (5 ≤ (recentTransactions hist t.customer_id now).length) then 40 else 0) +
          (if suspiciousMerchantHit t.merchant_name then 25 else 0)) := rfl
    rw [this]
    exact txLevel_cases _

/-- Claim C9 witness: the statement applied to a transaction with the
non-positive amount -5. -/
theorem claimC9_witness :
    "Yüksek tutar" ∉
      (analyze_transaction ⟨"t3", -5, "TRY", "market", "c1", "1234"⟩ 14 0 []).risk_factors ∧
    (analyze_transaction ⟨"t3", -5, "TRY", "market", "c1", "1234"⟩ 14 0 []).risk_score =
      min 100 ((if suspicious_hours.contains 14 then 20 else 0) +
        (if 5 ≤ (recentTransactions [] "c1" 0).length then 40 else 0) +
        (if suspiciousMerchantHit "market" then 25 else 0)) ∧
    ((analyze_transaction ⟨"t3", -5, "TRY", "market", "c1", "1234"⟩ 14 0 []).risk_level = "LOW" ∨
     (analyze_transaction ⟨"t3", -5, "TRY", "market", "c1", "1234"⟩ 14 0 []).risk_level = "MEDIUM" ∨
     (analyze_transaction ⟨"t3", -5, "TRY", "market", "c1", "1234"⟩ 14 0 []).risk_level = "HIGH") :=
  claimC9_nonpositive_amount ⟨"t3", -5, "TRY", "market", "c1", "1234"⟩ 14 0 [] (by norm_num)

/-- Claim C3: every assessment produced by any of the four evaluators has a
risk score between 0 and 100 inclusive (the clamp applies even when the
triggered weights sum above 100). -/
theorem claimC3_score_bounds :
    (∀ (t : TransactionData) (ch : Nat) (now : Int) (hist : List HistRecord),
      0 ≤ (analyze_transaction t ch now hist).risk_score ∧
      (analyze_transaction t ch now hist).risk_score ≤ 100) ∧
    (∀ (url : String) (r : URLResult), analyze_url url = some r →
      0 ≤ r.risk_score ∧ r.risk_score ≤ 100) ∧
    (∀ (email_content sender_email subject : String) (r : EmailResult),
      analyze_email email_content sender_email subject = some r →
      0 ≤ r.risk_score ∧ r.risk_score ≤ 100) ∧
    (∀ (phone_number : String) (caller_name : Option String) (r : PhoneResult),
      analyze_phone phone_number caller_name = Except.ok r →
      0 ≤ r.risk_score ∧ r.risk_score ≤ 100) := by
  refine ⟨?_, ?_, ?_, ?_⟩
  · intro t ch now hist
    exact ⟨Nat.zero_le _, Nat.min_le_left _ _⟩
  · intro url r h
    unfold analyze_url at h
    cases hd : extractDomain url with
    | none => rw [hd] at h; simp at h
    | some d =>
      rw [hd] at h
      simp only [Option.map_some', Option.some.injEq] at h
      subst h
      exact ⟨Nat.zero_le _, Nat.min_le_left _ _⟩
  · intro email_content sender_email subject r h
    unfold analyze_email at h
    cases hd : ((splitOnChar '@' sender_email.toList)[1]?).map String.mk with
    | none => rw [hd] at h; simp at h
    | some d =>
      rw [hd] at h
      simp only [Option.map_some', Option.some.injEq] at h
      subst h
      exact ⟨Nat.zero_le _, Nat.min_le_left _ _⟩
  · intro phone_number caller_name r h
    unfold analyze_phone at h
    simp only [Except.ok.injEq] at h
    subst h
    exact ⟨Nat.zero_le _, Nat.min_le_left _ _⟩

/-- Claim C3 witness: the bounds applied to one concrete subject of each of
the four types. -/
theorem claimC3_witness :
    (0 ≤ (analyze_transaction ⟨"t0", 5, "TRY", "market", "c0", "0000"⟩ 14 0 []).risk_score ∧
      (analyze_transaction ⟨"t0", 5, "TRY", "market", "c0", "0000"⟩ 14 0 []).risk_score ≤ 100) ∧
    (0 ≤ (URLResult.mk "x" "x" 25 "LOW" ["HTTPS kullanılmıyor"] true).risk_score ∧
      (URLResult.mk "x" "x" 25 "LOW" ["HTTPS kullanılmıyor"] true).risk_score ≤ 100) ∧
    (0 ≤ (EmailResult.mk "a@b.com" "selam" 0 "LOW" [] [] 0).risk_score ∧
      (EmailResult.mk "a@b.com" "selam" 0 "LOW" [] [] 0).risk_score ≤ 100) ∧
    (0 ≤ (PhoneResult.mk "abc" none 50 "MEDIUM"
        ["Türkiye dışı numara", "Geçersiz numara uzunluğu"] false).risk_score ∧
      (PhoneResult.mk "abc" none 50 "MEDIUM"
        ["Türkiye dışı numara", "Geçersiz numara uzunluğu"] false).risk_score ≤ 100) :=
  ⟨claimC3_score_bounds.1 ⟨"t0", 5, "TRY", "market", "c0", "0000"⟩ 14 0 [],
   claimC3_score_bounds.2.1 "x" (URLResult.mk "x" "x" 25 "LOW" ["HTTPS kullanılmıyor"] true)
     (by decide),
   claimC3_score_bounds.2.2.1 "merhaba" "a@b.com" "selam"
     (EmailResult.mk "a@b.com" "selam" 0 "LOW" [] [] 0) (by decide),
   claimC3_score_bounds.2.2.2 "abc" none
     (PhoneResult.mk "abc" none 50 "MEDIUM"
       ["Türkiye dışı numara", "Geçersiz numara uzunluğu"] false) rfl⟩

/-- Claim C10: for URL and phone assessments the safety flag and the risk
level can never disagree: `is_safe` holds exactly when the level is LOW
(both are computed from the same raw score against the threshold 30). -/
theorem claimC10_is_safe_iff_low :
    (∀ (url : String) (r : URLResult), analyze_url url = some r →
      (r.is_safe = true ↔ r.risk_level = "LOW")) ∧
    (∀ (phone_number : String) (caller_name : Option String) (r : PhoneResult),
      analyze_phone phone_number caller_name = Except.ok r →
      (r.is_safe = true ↔ r.risk_level = "LOW")) := by
  constructor
  · intro url r h
    unfold analyze_url at h
    cases hd : extractDomain url with
    | none => rw [hd] at h; simp at h
    | some d =>
      rw [hd] at h
      simp only [Option.map_some', Option.some.injEq] at h
      subst h
      simp only [decide_eq_true_eq, riskLevel60_eq_low_iff]
  · intro phone_number caller_name r h
    unfold analyze_phone at h
    simp only [Except.ok.injEq] at h
    subst h
    simp only [decide_eq_true_eq, riskLevel60_eq_low_iff]

/-- Claim C10 witness: the equivalence applied to one concrete URL
assessment and one concrete phone assessment. -/
theorem claimC10_witness :
    ((URLResult.mk "x" "x" 25 "LOW" ["HTTPS kullanılmıyor"] true).is_safe = true ↔
      (URLResult.mk "x" "x" 25 "LOW" ["HTTPS kullanılmıyor"] true).risk_level = "LOW") ∧
    ((PhoneResult.mk "abc" none 50 "MEDIUM"
        ["Türkiye dışı numara", "Geçersiz numara uzunluğu"] false).is_safe = true ↔
      (PhoneResult.mk "abc" none 50 "MEDIUM"
        ["Türkiye dışı numara", "Geçersiz numara uzunluğu"] false).risk_level = "LOW") :=
  ⟨claimC10_is_safe_iff_low.1 "x" (URLResult.mk "x" "x" 25 "LOW" ["HTTPS kullanılmıyor"] true)
     (by decide),
   claimC10_is_safe_iff_low.2 "abc" none
     (PhoneResult.mk "abc" none 50 "MEDIUM"
       ["Türkiye dışı numara", "Geçersiz numara uzunluğu"] false) rfl⟩

/-- Claim C6 (counterexample): for the body "acil acil" the urgency phrase
"acil" occurs twice, so the claimed per-occurrence rule would add 30, but
the code adds only 15: the contribution is NOT 15 times the number of
occurrences. -/
theorem claimC6_counterexample :
    urgencyScore "acil acil" ≠
      15 * (urgency_patterns.map fun p => countOcc p.toList ("acil acil").toList).sum := by
  decide

/-- Claim C6 (amended): the urgency contribution equals 15 times the number
of DISTINCT phrases of the fixed set occurring (at least once) in the body,
each phrase counted once however often it occurs; a body containing "acil"
and "hemen" still adds exactly 30, and the email risk score decomposes as
the sum of the keyword, urgency, link and spoof contributions (clamped), so
the urgency term is independent of the fraud-keyword rule. -/
theorem claimC6_amended :
    (∀ content_lower : String,
      urgencyScore content_lower =
        15 * (urgency_patterns.filter fun p =>
          decide (0 < countOcc p.toList content_lower.toList)).length) ∧
    urgencyScore "bu acil bir durum hemen ara" = 30 ∧
    (∀ (email_content sender_email subject sender_domain : String) (r : EmailResult),
      ((splitOnChar '@' sender_email.toList)[1]?).map String.mk = some sender_domain →
      analyze_email email_content sender_email subject = some r →
      r.risk_score = min 100
        ((keywordMatches (strLower email_content) (strLower subject)).length * 10 +
         urgencyScore (strLower email_content) + linkScore email_content +
         (if spoofedBank sender_domain then 25 else 0))) := by
  refine ⟨?_, by decide, ?_⟩
  · intro s
    have hfe : (urgency_patterns.filter fun p =>
        decide (0 < countOcc p.toList s.toList)) =
        (urgency_patterns.filter fun p => substrIn p s) := by
      apply List.filter_congr
      intro p _
      show decide (0 < countOcc p.toList s.toList) = substrIn p s
      cases hc : containsSub p.toList s.toList with
      | false =>
        have hnp : ¬ 0 < countOcc p.toList s.toList := fun hpos =>
          Bool.false_ne_true (hc.symm.trans ((countOcc_pos_iff _ _).mp hpos))
        calc decide (0 < countOcc p.toList s.toList) = false := decide_eq_false hnp
        _ = substrIn p s := hc.symm
      | true =>
        have hp : 0 < countOcc p.toList s.toList := (countOcc_pos_iff _ _).mpr hc
        calc decide (0 < countOcc p.toList s.toList) = true := decide_eq_true hp
        _ = substrIn p s := hc.symm
    rw [hfe]
    unfold urgencyScore urgencyCount
    split <;> omega
  · intro email_content sender_email subject sender_domain r h1 h2
    unfold analyze_email at h2
    rw [h1] at h2
    simp only [Option.map_some', Option.some.injEq] at h2
    subst h2
    rfl

/-- Claim C6 witness: the decomposition applied to a concrete email whose
body contains "acil" and "hemen" once each (urgency contribution 30). -/
theorem claimC6_witness :
    (EmailResult.mk "x@y.com" "selam" 50 "MEDIUM"
        ["Şüpheli kelimeler: acil, hemen", "Aciliyet bildiren ifadeler"]
        ["acil", "hemen"] 0).risk_score =
      min 100
        ((keywordMatches (strLower "bu acil bir durum hemen ara") (strLower "selam")).length * 10 +
         urgencyScore (strLower "bu acil bir durum hemen ara") +
         linkScore "bu acil bir durum hemen ara" +
         (if spoofedBank "y.com" then 25 else 0)) :=
  claimC6_amended.2.2 "bu acil bir durum hemen ara" "x@y.com" "selam" "y.com"
    (EmailResult.mk "x@y.com" "selam" 50 "MEDIUM"
      ["Şüpheli kelimeler: acil, hemen", "Aciliyet bildiren ifadeler"]
      ["acil", "hemen"] 0) (by decide) (by decide)

/-- Claim C7: domain extraction is total (always produces a string), and it
follows the stated algorithm exactly: with "//" present there are at least
three slash-delimited segments and the domain is the third; without "//"
the domain is the text before the first slash, which is the whole string
when no slash occurs. -/
theorem claimC7_domain_extraction (url : String) :
    (extractDomain url).isSome = true ∧
    (substrIn "//" url = true →
      3 ≤ (splitOnChar '/' url.toList).length ∧
      extractDomain url = ((splitOnChar '/' url.toList)[2]?).map String.mk) ∧
    (substrIn "//" url = false →
      extractDomain url =
        some (String.mk (url.toList.takeWhile fun c => !(c == '/')))) := by
  have h3 : substrIn "//" url = true → 3 ≤ (splitOnChar '/' url.toList).length := by
    intro h
    have hinf : ("//".toList) <:+: url.toList := (containsSub_correct _ _).mp h
    have hcle : ("//".toList).count '/' ≤ (url.toList).count '/' := hinf.count_le '/'
    have h2 : ("//".toList).count '/' = 2 := by decide
    rw [splitOnChar_length]
    omega
  refine ⟨?_, fun h => ⟨h3 h, ?_⟩, fun h => ?_⟩
  · by_cases h : substrIn "//" url = true
    · have hlt : 2 < (splitOnChar '/' url.toList).length := by
        have := h3 h
        omega
      unfold extractDomain
      rw [if_pos h, List.getElem?_eq_getElem hlt]
      simp
    · unfold extractDomain
      rw [if_neg h, splitOnChar_getZero]
      simp
  · unfold extractDomain
    rw [if_pos h]
  · unfold extractDomain
    rw [if_neg (by simp [h]), splitOnChar_getZero]
    simp

/-- Claim C7 witness: totality at a URL with "//" and the before-first-slash
characterization at a URL without "//". -/
theorem claimC7_witness :
    (extractDomain "http://abc.com/x").isSome = true ∧
    extractDomain "abc.com/x" =
      some (String.mk ("abc.com/x".toList.takeWhile fun c => !(c == '/'))) :=
  ⟨(claimC7_domain_extraction "http://abc.com/x").1,
   (claimC7_domain_extraction "abc.com/x").2.2 (by decide)⟩
